import Mathlib

/-!
Shallow embedding of `src/batchocr/batchocr.py` (BatchOCR): the page
searchability classifier (`analyze_pdf`), the per-file conversion decision in
`main`, and the OCR process orchestrator (`convert_to_searchable_pdf`).

Python floats are modelled as rationals (`ℚ`), Python ints as `Int`.
-/

namespace BatchOCR

/-- The fields of `ParsedArgs` that the modelled code reads (defaults from
`parse_command_line`): `text` (float, 1.0), `image` (float, 100.0),
`words` (int, 3), `pages` (int, 10), `unsearchable` (int, 2), `force`. -/
structure Config where
  text : ℚ
  image : ℚ
  words : Int
  pages : Int
  unsearchable : Int
  force : Bool
deriving DecidableEq

/-- Default option values from `parse_command_line`. -/
def defaultConfig : Config :=
  { text := 1, image := 100, words := 3, pages := 10, unsearchable := 2, force := false }

/-! ## Word matching: `re.finditer(r'\w\x7b5,20\x7d', text)`

A word character for the regex class; the source texts are ASCII, where
Python `\w` is alphanumerics plus underscore. -/

def isWordChar (c : Char) : Bool := c.isAlphanum || c = '_'

/-- Length of the leading run of word characters. -/
def runLen : List Char → Nat
  | [] => 0
  | c :: cs => if isWordChar c then runLen cs + 1 else 0

/-- Number of matches the regex engine yields inside one maximal run of word
characters: each greedy match consumes `min n 20` characters; a leftover of
fewer than 5 characters yields no further match.  Structural recursion on a
fuel argument (each step removes at least 5 characters, so `fuel = n`
always suffices); this keeps the definition kernel-evaluable. -/
def matchesInRunFuel : Nat → Nat → Nat
  | 0, _ => 0
  | fuel + 1, n => if n < 5 then 0 else 1 + matchesInRunFuel fuel (n - 20)

def matchesInRun (n : Nat) : Nat := matchesInRunFuel n n

/-- Total number of non-overlapping matches of `\w\x7b5,20\x7d` in a character
list, scanning left to right as `re.finditer` does: at a word character the
maximal run starting there yields its greedy matches and scanning resumes
after the run (positions inside a short leftover cannot start a match);
at a non-word character scanning advances.  Fueled by the list length. -/
def countMatchesFuel : Nat → List Char → Nat
  | 0, _ => 0
  | _, [] => 0
  | fuel + 1, c :: cs =>
    if isWordChar c then
      matchesInRun (runLen cs + 1) + countMatchesFuel fuel (cs.drop (runLen cs))
    else
      countMatchesFuel fuel cs

def countWordMatches (s : String) : Nat := countMatchesFuel s.data.length s.data

/-! ## Page content: the `page.get_text("dict")` block structure -/

/-- A block/page bounding box `(x0, y0, x1, y1)`. -/
structure BBox where
  x0 : ℚ
  y0 : ℚ
  x1 : ℚ
  y1 : ℚ
deriving DecidableEq

/-- `area = (x1 - x0) * (y1 - y0)` as computed at line 350 of the source. -/
def bboxArea (b : BBox) : ℚ := (b.x1 - b.x0) * (b.y1 - b.y0)

/-- A text span: `span["text"]`. -/
structure Span where
  text : String
deriving DecidableEq

/-- A line of a text block: `line["spans"]`. -/
structure Line where
  spans : List Span
deriving DecidableEq

/-- A `text_dict["blocks"]` entry: type 0 is a text block, type 1 an image
block; any other type is logged and ignored. -/
inductive Block where
  | text (bbox : BBox) (lines : List Line)
  | image (bbox : BBox)
  | other (btype : Int) (bbox : BBox)
deriving DecidableEq

def Block.isText : Block → Bool
  | .text _ _ => true
  | _ => false

def Block.isImage : Block → Bool
  | .image _ => true
  | _ => false

def Block.bbox : Block → BBox
  | .text b _ => b
  | .image b => b
  | .other _ b => b

/-- PyMuPDF bounding boxes are normalized (`x0 ≤ x1`, `y0 ≤ y1`), so block
areas are nonnegative; the model records this library invariant explicitly. -/
def blockAreaNonneg (b : Block) : Bool := decide (0 ≤ bboxArea (b.bbox))

/-- `' '.join([span["text"] for line in block["lines"] for span in line["spans"]])` -/
def blockText (lines : List Line) : String :=
  String.intercalate (" ") ((lines.flatMap Line.spans).map Span.text)

/-- The `for m in re.finditer(...)` loop with the `len(words) == ARGS.words`
break: iterate over the matches, appending each to `words`; the block is
counted the moment `len(words)` equals `ARGS.words`. `len` is the count so
far, `n` the number of matches not yet consumed. -/
def countedLoopAux (w : Int) (len : Nat) : Nat → Bool
  | 0 => false
  | n + 1 => if ((len : Int) + 1) = w then true else countedLoopAux w (len + 1) n

/-- Whether a text block with `numMatches` regex matches has its area added to
`text_area` (the loop broke via `len(words) == ARGS.words`). -/
def blockCounted (w : Int) (numMatches : Nat) : Bool := countedLoopAux w 0 numMatches

/-- Per-page accumulators of the block loop in `analyze_pdf`. -/
structure Stats where
  text_area : ℚ
  img_area : ℚ
  text_count : Nat
  text_skipped : Nat
deriving DecidableEq

/-- One iteration of the `for block in text_dict["blocks"]` loop. -/
def processBlock (w : Int) (s : Stats) : Block → Stats
  | .text bbox lines =>
    if blockCounted w (countWordMatches (blockText lines)) then
      { s with text_area := s.text_area + bboxArea bbox, text_count := s.text_count + 1 }
    else
      { s with text_count := s.text_count + 1, text_skipped := s.text_skipped + 1 }
  | .image bbox => { s with img_area := s.img_area + bboxArea bbox }
  | .other _ _ => s

/-- The whole block loop, starting from zeroed accumulators. -/
def pageStats (w : Int) (blocks : List Block) : Stats :=
  blocks.foldl (processBlock w) ⟨0, 0, 0, 0⟩

/-- A PDF page as `analyze_pdf` observes it: `abs(page.rect)` (an area, hence
nonnegative in the source), `page.get_text()`, `len(page.get_images(full=True))`,
`len(page.get_drawings())`, and the `get_text("dict")` blocks. -/
structure Page where
  rect_area : ℚ
  page_text : String
  num_images : Nat
  num_drawings : Nat
  blocks : List Block
deriving DecidableEq

/-- Library invariants of a page as PyMuPDF hands it to `analyze_pdf`:
`abs(page.rect)` is nonnegative and every block bounding box is normalized. -/
def pageWf (p : Page) : Bool :=
  decide (0 ≤ p.rect_area) && p.blocks.all blockAreaNonneg

def docWf (doc : List Page) : Bool := doc.all pageWf

/-- The guard at lines 326-330: the page is blank when `page.get_text().strip()`
is falsy (all characters whitespace) and there are no images and no drawings. -/
def pageIsBlank (p : Page) : Bool :=
  p.page_text.data.all Char.isWhitespace && p.num_images == 0 && p.num_drawings == 0

/-- The diagnostic warnings of lines 377-385, identified by their message. -/
inductive Warning where
  | textAreaExceedsPage
  | imageAreaExceedsPage
deriving DecidableEq

inductive PageLabel where
  | Blank
  | Searchable
  | Unsearchable
deriving DecidableEq

/-- Python `ZeroDivisionError`, raised by `text_area / page_area` when
`page_area == 0.0`. -/
inductive AnalyzeErr where
  | zeroDivision
deriving DecidableEq

structure PageReport where
  label : PageLabel
  warnings : List Warning
deriving DecidableEq

/-- The warning guards of lines 377-385.  NOTE: BOTH source guards test
`text_area > page_area`; the second guard logs the image-area message but its
condition re-tests the text area (the copy-paste at lines 382-385). -/
def classifyWarnings (cfg : Config) (p : Page) : List Warning :=
  (if (pageStats cfg.words p.blocks).text_area > p.rect_area then
    [Warning.textAreaExceedsPage] else []) ++
  (if (pageStats cfg.words p.blocks).text_area > p.rect_area then
    [Warning.imageAreaExceedsPage] else [])

/-- The per-page body of `analyze_pdf` (lines 326-396): blank test, block
loop, ratio computation (`text_area / page_area` raises `ZeroDivisionError`
on a zero page area), the warning guards, and the threshold decision at
line 393: `text_pct <= ARGS.text or img_pct > ARGS.image`. -/
def classifyPage (cfg : Config) (p : Page) : Except AnalyzeErr PageReport :=
  if pageIsBlank p then .ok ⟨.Blank, []⟩
  else if p.rect_area = 0 then .error .zeroDivision
  else if (pageStats cfg.words p.blocks).text_area / p.rect_area * 100 ≤ cfg.text ∨
      (pageStats cfg.words p.blocks).img_area / p.rect_area * 100 > cfg.image then
    .ok ⟨.Unsearchable, classifyWarnings cfg p⟩
  else
    .ok ⟨.Searchable, classifyWarnings cfg p⟩

instance {ε α : Type} [DecidableEq ε] [DecidableEq α] : DecidableEq (Except ε α)
  | .error e, .error f =>
    if h : e = f then .isTrue (by rw [h]) else .isFalse (by simp [h])
  | .error _, .ok _ => .isFalse (by simp)
  | .ok _, .error _ => .isFalse (by simp)
  | .ok a, .ok b =>
    if h : a = b then .isTrue (by rw [h]) else .isFalse (by simp [h])

/-- The `defaultdict[str, list[int]]` returned by `analyze_pdf`: lists of page
numbers, in increasing order, per label. -/
structure PdfType where
  blank : List Nat
  unsearchable : List Nat
  searchable : List Nat
deriving DecidableEq

def PdfType.add (pt : PdfType) (l : PageLabel) (n : Nat) : PdfType :=
  match l with
  | .Blank => { pt with blank := n :: pt.blank }
  | .Unsearchable => { pt with unsearchable := n :: pt.unsearchable }
  | .Searchable => { pt with searchable := n :: pt.searchable }

/-- The page loop of `analyze_pdf` starting at page number `pagenum`
(`enumerate(document, 1)` with `if pagenum > ARGS.pages: break`). An
exception from a page aborts the whole analysis. -/
def analyzeGo (cfg : Config) : Nat → List Page → Except AnalyzeErr PdfType
  | _, [] => .ok ⟨[], [], []⟩
  | pagenum, p :: rest =>
    if (pagenum : Int) > cfg.pages then .ok ⟨[], [], []⟩
    else
      match classifyPage cfg p with
      | .error e => .error e
      | .ok r =>
        match analyzeGo cfg (pagenum + 1) rest with
        | .error e => .error e
        | .ok pt => .ok (pt.add r.label pagenum)

def analyzePdf (cfg : Config) (doc : List Page) : Except AnalyzeErr PdfType :=
  analyzeGo cfg 1 doc

/-- `True` when `analyze_pdf` labelled the page Unsearchable; `False` for any
other label and also when the analysis raised. -/
def classifiedUnsearchable (cfg : Config) (p : Page) : Bool :=
  match classifyPage cfg p with
  | .ok r => r.label == .Unsearchable
  | .error _ => false

/-! ## The conversion decision of `main` (lines 613-635) -/

/-- `re.fullmatch(rf'.*(?-i:_OCR_)\.pdf', name, re.IGNORECASE)`: the name ends
in the case-sensitive `_OCR_`, a literal dot, and `pdf` in any case; `.*`
matches any leading characters (filenames on the target platform cannot
contain a newline). Checked on the reversed character list. -/
def isOcrNamed (name : String) : Bool :=
  match name.data.reverse with
  | f :: d :: p :: dot :: u1 :: r :: c :: o :: u2 :: _ =>
    f.toLower == 'f' && d.toLower == 'd' && p.toLower == 'p' &&
    dot == '.' && u1 == '_' && r == 'R' && c == 'C' && o == 'O' && u2 == '_'
  | _ => false

/-- Line 630-631: `len(pdf_type['Searchable']) == 0 or
len(pdf_type['Unsearchable']) > ARGS.unsearchable`. -/
def needsConversion (cfg : Config) (pt : PdfType) : Bool :=
  pt.searchable.length == 0 || decide ((pt.unsearchable.length : Int) > cfg.unsearchable)

/-- Outcome of one iteration of the conversion loop for one input file. -/
inductive FileAction where
  | skippedOcrName
  | skippedConverted
  | convertForced
  | convertUnsearchable
  | skippedSearchable
  | analysisError (e : AnalyzeErr)
deriving DecidableEq

/-- The body of the conversion-mode loop in `main` (lines 613-635), up to the
point where a conversion is started or the file is skipped: skip `*_OCR_.pdf`
inputs; skip when the output already exists unless forced (when forced the
stale output is deleted and processing continues); convert unconditionally
when forced; otherwise analyze and apply `needsConversion`. -/
def decideFile (cfg : Config) (name : String) (ocrExists : Bool) (doc : List Page) :
    FileAction :=
  if isOcrNamed name then .skippedOcrName
  else if ocrExists && !cfg.force then .skippedConverted
  else if cfg.force then .convertForced
  else
    match analyzePdf cfg doc with
    | .error e => .analysisError e
    | .ok pt => if needsConversion cfg pt then .convertUnsearchable else .skippedSearchable

/-! ## The OCR orchestrator `convert_to_searchable_pdf` (lines 437-508)

The external world (child process and filesystem) is abstracted as a trace of
observations the orchestrator makes at each poll/retry tick. -/

/-- Python exception classes relevant to the control flow: `sys.exit(1)` in
`fatal_error` raises `SystemExit`, which derives from `BaseException` but NOT
from `Exception`; every other error raised inside the `try` block is an
`Exception` instance. -/
inductive PyExc where
  | systemExit (code : Int)
  | runtimeError
deriving DecidableEq

/-- Whether `except Exception` catches the exception: it does not catch
`SystemExit`. -/
def PyExc.isException : PyExc → Bool
  | .systemExit _ => false
  | .runtimeError => true

inductive Outcome where
  | ok
  | raised (e : PyExc)
  | hang
deriving DecidableEq

/-- Result of a run: how the call ended, and whether the temporary output
artifact (`output stem + 'TMP_'`) exists afterwards. -/
structure OcrResult where
  outcome : Outcome
  tempExists : Bool
deriving DecidableEq

/-- Observations consumed by the orchestrator:
`await`: per tick of the `while not temp_pdf.exists()` loop, whether the file
now exists and, if not, the `fine.poll()` result (`some status` = exited);
`renames`: per attempt of the rename retry loop, whether `temp_pdf.rename`
succeeded and, if it raised `PermissionError`/`OSError`, the poll result;
`fineTermOk`: whether `fine.wait(timeout=10)` returned before the timeout;
`sprintFound`/`sprintTermOk`: the Sprint.exe scan and its bounded wait. -/
structure OcrTrace where
  spawnOk : Bool
  await : List (Bool × Option Int)
  renames : List (Bool × Option Int)
  fineTermOk : Bool
  sprintFound : Bool
  sprintTermOk : Bool
deriving DecidableEq

inductive LoopRes where
  | proceed
  | childExited (status : Int)
  | fuelOut
deriving DecidableEq

/-- Shared shape of the two polling loops: on a successful observation leave
the loop; on an unsuccessful one consult `fine.poll()` and call `fatal_error`
if the child has exited; otherwise sleep and retry. -/
def pollLoop : List (Bool × Option Int) → LoopRes
  | [] => .fuelOut
  | (done, poll) :: rest =>
    if done then .proceed
    else
      match poll with
      | some st => .childExited st
      | none => pollLoop rest

/-- The body of the `try` in `convert_to_searchable_pdf`, tracking whether the
temporary artifact exists when control leaves the body.  `fatal_error` is
`sys.exit(1)`, i.e. raising `SystemExit`.  After the awaiting loop proceeds
the artifact exists; after a successful rename it does not (it became the
final output). -/
def bodyRun (tr : OcrTrace) : OcrResult :=
  if !tr.spawnOk then ⟨.raised .runtimeError, false⟩
  else
    match pollLoop tr.await with
    | .childExited _ => ⟨.raised (.systemExit 1), false⟩
    | .fuelOut => ⟨.hang, false⟩
    | .proceed =>
      match pollLoop tr.renames with
      | .childExited _ => ⟨.raised (.systemExit 1), true⟩
      | .fuelOut => ⟨.hang, true⟩
      | .proceed =>
        if !tr.fineTermOk then ⟨.raised (.systemExit 1), false⟩
        else if tr.sprintFound && !tr.sprintTermOk then ⟨.raised (.systemExit 1), false⟩
        else ⟨.ok, false⟩

/-- `convert_to_searchable_pdf`: the `try` body wrapped in
`except Exception as e: temp_pdf.unlink(missing_ok=True); raise` (lines
505-508).  Only exceptions that are `Exception` instances trigger the unlink;
`SystemExit` propagates past the handler untouched. -/
def convert_to_searchable_pdf (tr : OcrTrace) : OcrResult :=
  let b := bodyRun tr
  match b.outcome with
  | .raised e => if e.isException then ⟨.raised e, false⟩ else b
  | _ => b

/-! ## Helper lemmas -/

/-- The match-counting loop breaks (counting the block) exactly when the
target `w` lies strictly above the running length and within reach of the
remaining matches. -/
lemma countedLoopAux_iff (w : Int) : ∀ (n len : Nat),
    countedLoopAux w len n = true ↔ (len : Int) < w ∧ w ≤ (len : Int) + (n : Int) := by
  intro n
  induction n with
  | zero =>
    intro len
    simp only [countedLoopAux, Bool.false_eq_true, false_iff]
    omega
  | succ m ih =>
    intro len
    simp only [countedLoopAux]
    by_cases h : ((len : Int) + 1) = w
    · rw [if_pos h]
      simp only [true_iff]
      omega
    · rw [if_neg h]
      rw [ih (len + 1)]
      push_cast
      omega

/-- A text block is counted toward `text_area` exactly when
`1 ≤ ARGS.words ≤ number of matches`. -/
lemma blockCounted_iff (w : Int) (n : Nat) :
    blockCounted w n = true ↔ 1 ≤ w ∧ w ≤ (n : Int) := by
  rw [blockCounted, countedLoopAux_iff]
  push_cast
  omega

lemma blockCounted_eq_decide (w : Int) (n : Nat) :
    blockCounted w n = decide (1 ≤ w ∧ w ≤ (n : Int)) := by
  cases hb : blockCounted w n with
  | true => exact (decide_eq_true ((blockCounted_iff w n).mp hb)).symm
  | false =>
    symm
    rw [decide_eq_false_iff_not]
    intro hc
    rw [(blockCounted_iff w n).mpr hc] at hb
    exact Bool.noConfusion hb

/-! ## Claims -/

/-- Claim C3 (amended): a text block's bounding-box area is added to the
page's text-area sum if and only if `1 ≤ ARGS.words` and the concatenated
span text contains at least `ARGS.words` matches of `\w\x7b5,20\x7d`;
otherwise (in particular, whenever `ARGS.words = 0`) the block is counted as
skipped and contributes nothing. -/
theorem text_block_counted_iff (w : Int) (s : Stats) (bbox : BBox) (lines : List Line) :
    processBlock w s (.text bbox lines) =
      if 1 ≤ w ∧ w ≤ (countWordMatches (blockText lines) : Int) then
        { s with text_area := s.text_area + bboxArea bbox, text_count := s.text_count + 1 }
      else
        { s with text_count := s.text_count + 1, text_skipped := s.text_skipped + 1 } := by
  simp only [processBlock, blockCounted_eq_decide, decide_eq_true_eq]

/-- Claim C3, counterexample to the `ARGS.words = 0` case as claimed: the
block text has (trivially) at least 0 matches, yet with `ARGS.words = 0` the
block is skipped and its nonzero area is not added. -/
theorem words_zero_block_never_counted :
    processBlock 0 ⟨0, 0, 0, 0⟩ (.text ⟨0, 0, 10, 5⟩ [⟨[⟨"hello"⟩]⟩]) = ⟨0, 0, 1, 1⟩ ∧
    (0 : Int) ≤ (countWordMatches (blockText [⟨[⟨"hello"⟩]⟩]) : Int) ∧
    bboxArea ⟨0, 0, 10, 5⟩ ≠ 0 := by
  have h : blockCounted 0 (countWordMatches (blockText [⟨[⟨"hello"⟩]⟩])) = false := by decide
  refine ⟨?_, by decide, by norm_num [bboxArea]⟩
  simp [processBlock, h]

/-- Claim C7: a page with no extractable text, no images, and no drawings is
classified Blank, with no ratio computed (the page area may even be zero). -/
theorem blank_page_classified_blank (cfg : Config) (p : Page)
    (ht : p.page_text.data.all Char.isWhitespace = true)
    (hi : p.num_images = 0) (hd : p.num_drawings = 0) :
    classifyPage cfg p = .ok ⟨.Blank, []⟩ := by
  have hb : pageIsBlank p = true := by
    simp [pageIsBlank, ht, hi, hd]
  simp [classifyPage, hb]

/-- Claim C7, witness: a zero-area page with no content is Blank. -/
theorem blank_page_classified_blank_witness :
    classifyPage defaultConfig ⟨0, (" "), 0, 0, []⟩ = .ok ⟨.Blank, []⟩ :=
  blank_page_classified_blank defaultConfig ⟨0, (" "), 0, 0, []⟩ (by decide) rfl rfl

/-- Claim C9: a page with some content (not Blank) but zero bounding-box area
makes the ratio computation divide by zero: `analyze_pdf` raises instead of
producing a label. -/
theorem zero_area_page_raises (cfg : Config) (p : Page)
    (hnb : pageIsBlank p = false) (h0 : p.rect_area = 0) :
    classifyPage cfg p = .error .zeroDivision := by
  simp [classifyPage, hnb, h0]

/-- Claim C9, witness: a zero-area page carrying one image. -/
theorem zero_area_page_raises_witness :
    classifyPage defaultConfig ⟨0, (""), 1, 0, [.image ⟨0, 0, 1, 1⟩]⟩ =
      .error .zeroDivision :=
  zero_area_page_raises defaultConfig ⟨0, (""), 1, 0, [.image ⟨0, 0, 1, 1⟩]⟩ (by decide) rfl

/-- The schedule on which claim C1 fails: the child starts normally, the
temporary artifact appears, the first rename attempt raises
`PermissionError`, and the poll then reports the child exited with status 1
— the rename retry loop calls `fatal_error`. -/
def failedRenameTrace : OcrTrace :=
  ⟨true, [(true, none)], [(false, some 1)], true, false, true⟩

/-- Claim C1: the claim is violated by the code.  On the schedule where the
rename retry loop detects the child exited, `fatal_error` calls
`sys.exit(1)`, raising `SystemExit` — which `except Exception` (lines
505-508) does not catch, so `temp_pdf.unlink` never runs and the temporary
artifact still exists when the failure propagates. -/
theorem temp_artifact_survives_fatal_rename_failure :
    convert_to_searchable_pdf failedRenameTrace = ⟨.raised (.systemExit 1), true⟩ ∧
    (PyExc.systemExit 1).isException = false := by decide

/-- A page whose single image block (area 200) exceeds the page area (100),
with no text area. -/
def imageOverflowPage : Page := ⟨100, ("x"), 1, 0, [.image ⟨0, 0, 20, 10⟩]⟩

/-- Claim C2: the claim is violated by the code.  On a page whose image area
(200) exceeds the page area (100) no warning is emitted, because the second
warning guard at line 382 re-tests `text_area > page_area` instead of
`img_area > page_area`; the raw unclamped ratio is still used for the
decision (img_pct = 200 > 100 makes the page Unsearchable). -/
theorem no_warning_when_image_area_exceeds_page :
    pageStats defaultConfig.words imageOverflowPage.blocks = ⟨0, 200, 0, 0⟩ ∧
    (200 : ℚ) > imageOverflowPage.rect_area ∧
    classifyPage defaultConfig imageOverflowPage = .ok ⟨.Unsearchable, []⟩ := by
  have hs : pageStats defaultConfig.words imageOverflowPage.blocks = ⟨0, 200, 0, 0⟩ := by
    norm_num [pageStats, imageOverflowPage, processBlock, bboxArea]
  have hb : pageIsBlank imageOverflowPage = false := by decide
  refine ⟨hs, by norm_num [imageOverflowPage], ?_⟩
  rw [classifyPage, if_neg (by simp [hb]), if_neg (by norm_num [imageOverflowPage]),
    if_pos, classifyWarnings, hs]
  · norm_num [imageOverflowPage]
  · rw [hs]
    norm_num [imageOverflowPage, defaultConfig]

lemma isOcrNamed_suffix (stem : String) : isOcrNamed (stem ++ ("_OCR_.pdf")) = true := by
  unfold isOcrNamed
  have hrev : (stem ++ ("_OCR_.pdf")).data.reverse =
      'f' :: 'd' :: 'p' :: '.' :: '_' :: 'R' :: 'C' :: 'O' :: '_' :: stem.data.reverse := by
    rw [String.data_append, List.reverse_append]
    rfl
  rw [hrev]
  rfl

/-- Claim C8: in conversion mode, any input file whose name ends with the
literal suffix `_OCR_.pdf` is skipped, for every configuration, whether or
not the output exists, and for every document content — in particular no
analysis of the document is performed (the result does not depend on `doc`). -/
theorem ocr_named_always_skipped (stem : String) (cfg : Config) (ocrExists : Bool)
    (doc : List Page) :
    decideFile cfg (stem ++ ("_OCR_.pdf")) ocrExists doc = .skippedOcrName := by
  rw [decideFile, if_pos (isOcrNamed_suffix stem)]

/-- Claim C5: absent the force flag (and for a file that is neither
OCR-named nor already converted), the controller proceeds to convert exactly
when zero sampled pages are Searchable or the Unsearchable count exceeds
`ARGS.unsearchable`. -/
theorem convert_iff_not_searchable (cfg : Config) (name : String) (doc : List Page)
    (pt : PdfType) (hforce : cfg.force = false) (hname : isOcrNamed name = false)
    (ha : analyzePdf cfg doc = .ok pt) :
    decideFile cfg name false doc = .convertUnsearchable ↔
      (pt.searchable.length = 0 ∨ (pt.unsearchable.length : Int) > cfg.unsearchable) := by
  rw [decideFile, if_neg (by simp [hname]), if_neg (by simp), if_neg (by simp [hforce])]
  rw [ha]
  dsimp only
  cases hnc : needsConversion cfg pt with
  | true =>
    rw [if_pos rfl]
    refine iff_of_true rfl ?_
    simp only [needsConversion, Bool.or_eq_true, beq_iff_eq, decide_eq_true_eq] at hnc
    exact hnc
  | false =>
    rw [if_neg (by simp)]
    refine iff_of_false (by simp) ?_
    simp only [needsConversion, Bool.or_eq_false_iff, beq_eq_false_iff_ne, ne_eq,
      decide_eq_false_iff_not, not_lt] at hnc
    rintro (h | h)
    · exact hnc.1 h
    · exact absurd hnc.2 (not_le.mpr h)

/-- Claim C5, witness: an empty sample has zero Searchable pages, so the
empty document is judged to need conversion. -/
theorem convert_iff_not_searchable_witness :
    decideFile defaultConfig ("a.pdf") false [] = .convertUnsearchable ↔
      ((PdfType.mk [] [] []).searchable.length = 0 ∨
        ((PdfType.mk [] [] []).unsearchable.length : Int) > defaultConfig.unsearchable) :=
  convert_iff_not_searchable defaultConfig ("a.pdf") [] ⟨[], [], []⟩ rfl (by decide)
    (by decide)

/-- Claim C6: a classified, non-Blank page is Unsearchable exactly when
`textPct <= ARGS.text` or `imgPct > ARGS.image`, and every classified page
carries exactly one of the three labels. -/
theorem classified_unsearchable_iff (cfg : Config) (p : Page) (r : PageReport)
    (hok : classifyPage cfg p = .ok r) (hnb : r.label ≠ .Blank) :
    (r.label = .Unsearchable ↔
      (pageStats cfg.words p.blocks).text_area / p.rect_area * 100 ≤ cfg.text ∨
      (pageStats cfg.words p.blocks).img_area / p.rect_area * 100 > cfg.image) ∧
    (r.label = .Blank ∨ r.label = .Searchable ∨ r.label = .Unsearchable) := by
  refine ⟨?_, by cases hl : r.label <;> simp [hl]⟩
  unfold classifyPage at hok
  by_cases hb : pageIsBlank p = true
  · rw [if_pos hb] at hok
    injection hok with h
    rw [← h] at hnb
    exact absurd rfl hnb
  · rw [if_neg hb] at hok
    by_cases hz : p.rect_area = 0
    · rw [if_pos hz] at hok
      exact absurd hok (by simp)
    · rw [if_neg hz] at hok
      by_cases hc : (pageStats cfg.words p.blocks).text_area / p.rect_area * 100 ≤ cfg.text ∨
          (pageStats cfg.words p.blocks).img_area / p.rect_area * 100 > cfg.image
      · rw [if_pos hc] at hok
        injection hok with h
        rw [← h]
        exact iff_of_true rfl hc
      · rw [if_neg hc] at hok
        injection hok with h
        rw [← h]
        exact iff_of_false (by simp) hc

/-- Claim C6, witness: a non-blank page with no blocks under default
thresholds (textPct = 0 <= 1, so Unsearchable). -/
theorem classified_unsearchable_iff_witness :
    ((PageReport.mk .Unsearchable (classifyWarnings defaultConfig ⟨100, ("x"), 0, 0, []⟩)).label
        = .Unsearchable ↔
      (pageStats defaultConfig.words (Page.mk 100 ("x") 0 0 []).blocks).text_area /
          (Page.mk 100 ("x") 0 0 []).rect_area * 100 ≤ defaultConfig.text ∨
      (pageStats defaultConfig.words (Page.mk 100 ("x") 0 0 []).blocks).img_area /
          (Page.mk 100 ("x") 0 0 []).rect_area * 100 > defaultConfig.image) ∧
    ((PageReport.mk .Unsearchable (classifyWarnings defaultConfig ⟨100, ("x"), 0, 0, []⟩)).label
        = .Blank ∨
      (PageReport.mk .Unsearchable (classifyWarnings defaultConfig ⟨100, ("x"), 0, 0, []⟩)).label
        = .Searchable ∨
      (PageReport.mk .Unsearchable (classifyWarnings defaultConfig ⟨100, ("x"), 0, 0, []⟩)).label
        = .Unsearchable) :=
  classified_unsearchable_iff defaultConfig (Page.mk 100 ("x") 0 0 [])
    (PageReport.mk .Unsearchable (classifyWarnings defaultConfig ⟨100, ("x"), 0, 0, []⟩))
    (by
      rw [classifyPage, if_neg (by decide), if_neg (by norm_num), if_pos]
      left
      norm_num [pageStats, defaultConfig])
    (by decide)

/-- Blocks that are neither text nor image blocks leave all accumulators
unchanged. -/
lemma foldl_stats_no_content (w : Int) (s : Stats) :
    ∀ blocks : List Block, (∀ b ∈ blocks, b.isText = false ∧ b.isImage = false) →
      blocks.foldl (processBlock w) s = s
  | [], _ => rfl
  | b :: rest, hb => by
    have hbb := hb b (List.mem_cons_self b rest)
    cases b with
    | text bbox lines => simp [Block.isText] at hbb
    | image bbox => simp [Block.isImage] at hbb
    | other t bbox =>
      rw [List.foldl_cons]
      exact foldl_stats_no_content w s rest fun x hx => hb x (List.mem_cons_of_mem _ hx)

/-- Claim C10 (amended): a page with at least one drawing, no extractable
text, no images, and no text or image blocks, whose bounding-box area is
positive, is classified Unsearchable whenever `ARGS.text >= 0` (drawings
defeat the Blank test but contribute nothing to either area sum). -/
theorem drawings_only_page_unsearchable (cfg : Config) (p : Page)
    (ht : p.page_text.data.all Char.isWhitespace = true)
    (hi : p.num_images = 0) (hd : 0 < p.num_drawings)
    (hb : ∀ b ∈ p.blocks, b.isText = false ∧ b.isImage = false)
    (harea : 0 < p.rect_area) (htext : 0 ≤ cfg.text) :
    classifyPage cfg p = .ok ⟨.Unsearchable, []⟩ := by
  have hstats : pageStats cfg.words p.blocks = ⟨0, 0, 0, 0⟩ :=
    foldl_stats_no_content cfg.words ⟨0, 0, 0, 0⟩ p.blocks hb
  have hta : (pageStats cfg.words p.blocks).text_area = 0 := by rw [hstats]
  have hia : (pageStats cfg.words p.blocks).img_area = 0 := by rw [hstats]
  have hnb : pageIsBlank p = false := by
    have hdz : (p.num_drawings == 0) = false := by
      simp only [beq_eq_false_iff_ne, ne_eq]
      omega
    simp [pageIsBlank, hdz]
  have hw : classifyWarnings cfg p = [] := by
    rw [classifyWarnings, hta]
    rw [if_neg (not_lt.mpr (le_of_lt harea)), if_neg (not_lt.mpr (le_of_lt harea))]
    rfl
  rw [classifyPage, if_neg (by simp [hnb]), if_neg (ne_of_gt harea)]
  rw [hta, hia, zero_div, zero_mul]
  rw [if_pos (Or.inl htext), hw]

/-- Claim C10, witness: a positive-area page carrying only a drawing is
Unsearchable under default thresholds. -/
theorem drawings_only_page_unsearchable_witness :
    classifyPage defaultConfig ⟨100, (""), 0, 1, []⟩ = .ok ⟨.Unsearchable, []⟩ :=
  drawings_only_page_unsearchable defaultConfig ⟨100, (""), 0, 1, []⟩ (by decide) rfl
    (by decide) (by simp) (by norm_num) (by norm_num [defaultConfig])

/-- Claim C10, counterexample to the claim as stated: a drawings-only page
whose bounding-box area is zero satisfies every hypothesis of the claim
(a drawing, no text, no images, `ARGS.text >= 0`) yet is not classified
Unsearchable — the ratio computation raises instead. -/
theorem drawings_only_zero_area_not_unsearchable :
    classifiedUnsearchable defaultConfig ⟨0, (""), 0, 1, []⟩ = false ∧
    classifyPage defaultConfig ⟨0, (""), 0, 1, []⟩ = .error .zeroDivision ∧
    0 < (Page.mk 0 ("") 0 1 []).num_drawings ∧ (0 : ℚ) ≤ defaultConfig.text := by
  have he : classifyPage defaultConfig ⟨0, (""), 0, 1, []⟩ = .error .zeroDivision := by
    rw [classifyPage, if_neg (by decide), if_pos rfl]
  refine ⟨?_, he, by decide, by norm_num [defaultConfig]⟩
  unfold classifiedUnsearchable
  rw [he]

/-! ## Monotonicity of the word minimum (claim C4) -/

lemma processBlock_text_counted (w : Int) (s : Stats) (bbox : BBox) (lines : List Line)
    (h : blockCounted w (countWordMatches (blockText lines)) = true) :
    processBlock w s (.text bbox lines) =
      { s with text_area := s.text_area + bboxArea bbox, text_count := s.text_count + 1 } := by
  simp only [processBlock]
  rw [if_pos h]

lemma processBlock_text_skipped (w : Int) (s : Stats) (bbox : BBox) (lines : List Line)
    (h : ¬blockCounted w (countWordMatches (blockText lines)) = true) :
    processBlock w s (.text bbox lines) =
      { s with text_count := s.text_count + 1, text_skipped := s.text_skipped + 1 } := by
  simp only [processBlock]
  rw [if_neg h]

lemma processBlock_image_eq (w : Int) (s : Stats) (bbox : BBox) :
    processBlock w s (.image bbox) = { s with img_area := s.img_area + bboxArea bbox } := rfl

lemma processBlock_other_eq (w t : Int) (s : Stats) (bbox : BBox) :
    processBlock w s (.other t bbox) = s := rfl

/-- With `1 ≤ w1 ≤ w2`, raising the word minimum only removes blocks from the
text-area sum (given nonnegative block areas); the image-area sum is
untouched. -/
lemma foldl_stats_mono (w1 w2 : Int) (h1 : 1 ≤ w1) (h12 : w1 ≤ w2) :
    ∀ (blocks : List Block) (s1 s2 : Stats),
      (∀ b ∈ blocks, blockAreaNonneg b = true) →
      s2.text_area ≤ s1.text_area → s2.img_area = s1.img_area →
      (blocks.foldl (processBlock w2) s2).text_area ≤
          (blocks.foldl (processBlock w1) s1).text_area ∧
      (blocks.foldl (processBlock w2) s2).img_area =
          (blocks.foldl (processBlock w1) s1).img_area
  | [], _, _, _, ht, hi => ⟨ht, hi⟩
  | b :: rest, s1, s2, hwf, ht, hi => by
    have hwfr : ∀ x ∈ rest, blockAreaNonneg x = true :=
      fun x hx => hwf x (List.mem_cons_of_mem _ hx)
    rw [List.foldl_cons, List.foldl_cons]
    have hstep : (processBlock w2 s2 b).text_area ≤ (processBlock w1 s1 b).text_area ∧
        (processBlock w2 s2 b).img_area = (processBlock w1 s1 b).img_area := by
      cases b with
      | text bbox lines =>
        have harea : 0 ≤ bboxArea bbox := by
          simpa [blockAreaNonneg, Block.bbox] using hwf _ (List.mem_cons_self _ _)
        by_cases hc2 : blockCounted w2 (countWordMatches (blockText lines)) = true
        · have hc1 : blockCounted w1 (countWordMatches (blockText lines)) = true := by
            rw [blockCounted_iff] at hc2 ⊢
            omega
          rw [processBlock_text_counted w2 s2 bbox lines hc2,
            processBlock_text_counted w1 s1 bbox lines hc1]
          exact ⟨by dsimp only; linarith, by dsimp only; exact hi⟩
        · rw [processBlock_text_skipped w2 s2 bbox lines hc2]
          by_cases hc1 : blockCounted w1 (countWordMatches (blockText lines)) = true
          · rw [processBlock_text_counted w1 s1 bbox lines hc1]
            exact ⟨by dsimp only; linarith, by dsimp only; exact hi⟩
          · rw [processBlock_text_skipped w1 s1 bbox lines hc1]
            exact ⟨by dsimp only; exact ht, by dsimp only; exact hi⟩
      | image bbox =>
        rw [processBlock_image_eq, processBlock_image_eq]
        exact ⟨by dsimp only; exact ht, by dsimp only; rw [hi]⟩
      | other t bbox =>
        rw [processBlock_other_eq, processBlock_other_eq]
        exact ⟨ht, hi⟩
    exact foldl_stats_mono w1 w2 h1 h12 rest _ _ hwfr hstep.1 hstep.2

lemma pageStats_mono (w1 w2 : Int) (h1 : 1 ≤ w1) (h12 : w1 ≤ w2) (blocks : List Block)
    (hwf : ∀ b ∈ blocks, blockAreaNonneg b = true) :
    (pageStats w2 blocks).text_area ≤ (pageStats w1 blocks).text_area ∧
    (pageStats w2 blocks).img_area = (pageStats w1 blocks).img_area :=
  foldl_stats_mono w1 w2 h1 h12 blocks ⟨0, 0, 0, 0⟩ ⟨0, 0, 0, 0⟩ hwf le_rfl rfl

/-- Raising the word minimum (within `1 ≤ w1 ≤ w2`) preserves the
Unsearchable label of a classified page. -/
lemma classifyPage_unsearchable_mono (cfg : Config) (w1 w2 : Int)
    (h1 : 1 ≤ w1) (h12 : w1 ≤ w2) (p : Page) (hwf : pageWf p = true)
    (r1 r2 : PageReport)
    (e1 : classifyPage { cfg with words := w1 } p = .ok r1)
    (e2 : classifyPage { cfg with words := w2 } p = .ok r2)
    (hu : r1.label = .Unsearchable) : r2.label = .Unsearchable := by
  have hrect : 0 ≤ p.rect_area := by
    have hx := hwf
    simp only [pageWf, Bool.and_eq_true, decide_eq_true_eq] at hx
    exact hx.1
  have hblocks : ∀ b ∈ p.blocks, blockAreaNonneg b = true := by
    have hx := hwf
    simp only [pageWf, Bool.and_eq_true, List.all_eq_true] at hx
    exact fun b hbm => hx.2 b hbm
  unfold classifyPage at e1 e2
  dsimp only at e1 e2
  by_cases hb : pageIsBlank p = true
  · rw [if_pos hb] at e1
    injection e1 with h
    rw [← h] at hu
    exact absurd hu (by simp)
  · rw [if_neg hb] at e1 e2
    by_cases hz : p.rect_area = 0
    · rw [if_pos hz] at e1
      exact absurd e1 (by simp)
    · rw [if_neg hz] at e1 e2
      have hrpos : 0 < p.rect_area := lt_of_le_of_ne hrect (Ne.symm hz)
      have hmono := pageStats_mono w1 w2 h1 h12 p.blocks hblocks
      by_cases hc1 : (pageStats w1 p.blocks).text_area / p.rect_area * 100 ≤ cfg.text ∨
          (pageStats w1 p.blocks).img_area / p.rect_area * 100 > cfg.image
      · have hc2 : (pageStats w2 p.blocks).text_area / p.rect_area * 100 ≤ cfg.text ∨
            (pageStats w2 p.blocks).img_area / p.rect_area * 100 > cfg.image := by
          rcases hc1 with h | h
          · left
            calc (pageStats w2 p.blocks).text_area / p.rect_area * 100
                ≤ (pageStats w1 p.blocks).text_area / p.rect_area * 100 := by
                  gcongr
                  exact hmono.1
              _ ≤ cfg.text := h
          · right
            rw [hmono.2]
            exact h
        rw [if_pos hc2] at e2
        injection e2 with h
        rw [← h]
      · rw [if_neg hc1] at e1
        injection e1 with h
        rw [← h] at hu
        exact absurd hu (by simp)

lemma PdfType.add_unsearchable_length (pt : PdfType) (l : PageLabel) (n : Nat) :
    (pt.add l n).unsearchable.length =
      pt.unsearchable.length + (if l = .Unsearchable then 1 else 0) := by
  cases l <;> simp [PdfType.add]

/-- The page loop preserves the Unsearchable-count inequality when the word
minimum is raised within `1 ≤ w1 ≤ w2`. -/
lemma analyzeGo_unsearchable_mono (cfg : Config) (w1 w2 : Int)
    (h1 : 1 ≤ w1) (h12 : w1 ≤ w2) :
    ∀ (doc : List Page) (pagenum : Nat) (pt1 pt2 : PdfType),
      docWf doc = true →
      analyzeGo { cfg with words := w1 } pagenum doc = .ok pt1 →
      analyzeGo { cfg with words := w2 } pagenum doc = .ok pt2 →
      pt1.unsearchable.length ≤ pt2.unsearchable.length
  | [], _, pt1, pt2, _, e1, e2 => by
    unfold analyzeGo at e1 e2
    injection e1 with h1x
    injection e2 with h2x
    rw [← h1x, ← h2x]
  | p :: rest, pagenum, pt1, pt2, hwf, e1, e2 => by
    have hwfp : pageWf p = true := by
      simp only [docWf, List.all_eq_true] at hwf
      exact hwf p (List.mem_cons_self p rest)
    have hwfr : docWf rest = true := by
      simp only [docWf, List.all_eq_true] at hwf ⊢
      exact fun x hx => hwf x (List.mem_cons_of_mem _ hx)
    unfold analyzeGo at e1 e2
    dsimp only at e1 e2
    by_cases hpn : (pagenum : Int) > cfg.pages
    · rw [if_pos hpn] at e1 e2
      injection e1 with h1x
      injection e2 with h2x
      rw [← h1x, ← h2x]
    · rw [if_neg hpn] at e1 e2
      cases hcp1 : classifyPage { cfg with words := w1 } p with
      | error e =>
        rw [hcp1] at e1
        exact absurd e1 (by simp)
      | ok r1 =>
        cases hcp2 : classifyPage { cfg with words := w2 } p with
        | error e =>
          rw [hcp2] at e2
          exact absurd e2 (by simp)
        | ok r2 =>
          rw [hcp1] at e1
          rw [hcp2] at e2
          dsimp only at e1 e2
          cases hg1 : analyzeGo { cfg with words := w1 } (pagenum + 1) rest with
          | error e =>
            rw [hg1] at e1
            exact absurd e1 (by simp)
          | ok q1 =>
            cases hg2 : analyzeGo { cfg with words := w2 } (pagenum + 1) rest with
            | error e =>
              rw [hg2] at e2
              exact absurd e2 (by simp)
            | ok q2 =>
              rw [hg1] at e1
              rw [hg2] at e2
              dsimp only at e1 e2
              injection e1 with h1x
              injection e2 with h2x
              rw [← h1x, ← h2x]
              have hq := analyzeGo_unsearchable_mono cfg w1 w2 h1 h12 rest (pagenum + 1)
                q1 q2 hwfr hg1 hg2
              rw [PdfType.add_unsearchable_length, PdfType.add_unsearchable_length]
              by_cases hu1 : r1.label = .Unsearchable
              · have hu2 : r2.label = .Unsearchable :=
                  classifyPage_unsearchable_mono cfg w1 w2 h1 h12 p hwfp r1 r2 hcp1 hcp2 hu1
                rw [if_pos hu1, if_pos hu2]
                omega
              · rw [if_neg hu1]
                by_cases hu2 : r2.label = .Unsearchable
                · rw [if_pos hu2]
                  omega
                · rw [if_neg hu2]
                  omega

/-- Claim C4 (amended): for a well-formed document and fixed other
thresholds, raising `ARGS.words` from `w1` to `w2` with `1 ≤ w1 ≤ w2` never
decreases the number of sampled pages classified Unsearchable.  (From
`w1 = 0` the claim fails: see the counterexample.) -/
theorem unsearchable_count_monotone (cfg : Config) (doc : List Page) (w1 w2 : Int)
    (hwf : docWf doc = true) (h1 : 1 ≤ w1) (h12 : w1 ≤ w2) (pt1 pt2 : PdfType)
    (e1 : analyzePdf { cfg with words := w1 } doc = .ok pt1)
    (e2 : analyzePdf { cfg with words := w2 } doc = .ok pt2) :
    pt1.unsearchable.length ≤ pt2.unsearchable.length :=
  analyzeGo_unsearchable_mono cfg w1 w2 h1 h12 doc 1 pt1 pt2 hwf e1 e2

/-- A one-page document with no blocks and a non-whitespace character of
extractable text: Unsearchable for every word minimum. -/
def plainPage : Page := ⟨100, ("x"), 0, 0, []⟩

/-- Claim C4, witness: on the one-page no-block document, raising the word
minimum from 1 to 2 leaves the Unsearchable count at 1. -/
theorem unsearchable_count_monotone_witness :
    (PdfType.mk [] [1] []).unsearchable.length ≤
      (PdfType.mk [] [1] []).unsearchable.length :=
  unsearchable_count_monotone defaultConfig [plainPage] 1 2
    (by norm_num [docWf, pageWf, plainPage]) (by norm_num) (by norm_num)
    ⟨[], [1], []⟩ ⟨[], [1], []⟩
    (by
      have hx : ('x').isWhitespace = false := by decide
      norm_num [analyzePdf, analyzeGo, classifyPage, pageIsBlank, pageStats, defaultConfig,
        classifyWarnings, plainPage, PdfType.add, hx])
    (by
      have hx : ('x').isWhitespace = false := by decide
      norm_num [analyzePdf, analyzeGo, classifyPage, pageIsBlank, pageStats, defaultConfig,
        classifyWarnings, plainPage, PdfType.add, hx])

/-- A one-page document whose single text block (area 50 of 100) holds
exactly one `\w\x7b5,20\x7d` match. -/
def oneWordPage : Page := ⟨100, ("hello"), 0, 0, [.text ⟨0, 0, 10, 5⟩ [⟨[⟨"hello"⟩]⟩]]⟩

/-- Claim C4, counterexample to the claim as stated (which allows `w1 = 0`):
on a well-formed document, raising `ARGS.words` from 0 to 1 DECREASES the
Unsearchable count from 1 to 0, because with `ARGS.words = 0` no block is
ever counted toward text area (the `len(words) == ARGS.words` break never
fires), while with `ARGS.words = 1` the block is counted and the page
becomes Searchable. -/
theorem words_zero_monotonicity_fails :
    analyzePdf { defaultConfig with words := 0 } [oneWordPage] = .ok ⟨[], [1], []⟩ ∧
    analyzePdf { defaultConfig with words := 1 } [oneWordPage] = .ok ⟨[], [], [1]⟩ ∧
    docWf [oneWordPage] = true ∧
    (PdfType.mk [] [1] []).unsearchable.length >
      (PdfType.mk [] [] [1]).unsearchable.length := by
  have hbc0 : blockCounted 0 (countWordMatches (blockText [⟨[⟨"hello"⟩]⟩])) = false := by
    decide
  have hbc1 : blockCounted 1 (countWordMatches (blockText [⟨[⟨"hello"⟩]⟩])) = true := by
    decide
  have hh : ('h').isWhitespace = false := by decide
  refine ⟨?_, ?_, ?_, by decide⟩
  · norm_num [analyzePdf, analyzeGo, classifyPage, pageIsBlank, pageStats, defaultConfig,
      classifyWarnings, oneWordPage, PdfType.add, processBlock, hbc0, bboxArea, hh]
  · norm_num [analyzePdf, analyzeGo, classifyPage, pageIsBlank, pageStats, defaultConfig,
      classifyWarnings, oneWordPage, PdfType.add, processBlock, hbc1, bboxArea, hh]
  · norm_num [docWf, pageWf, oneWordPage, blockAreaNonneg, Block.bbox, bboxArea]

end BatchOCR
